import Mathlib

/-!
# Verification of `src/ingestion/generate_revops_sources.py`

Shallow embedding of the synthetic RevOps generator: a single linear pass that
loads an orders table, aggregates distinct purchase counts per day, and for each
(day, channel) synthesizes funnel (sessions/leads/purchases) and spend rows.

Python floats are modelled by exact rationals (`ℚ`); machine integers by `ℤ`.
Python's `int(...)` truncation toward zero, banker's `round(...)`, `np.ceil`
and `round(x, 2)` are modelled explicitly below.
-/

namespace RevOps

/-- The five fixed channel labels, in the order of the `CHANNELS` list
(line 11 of the source), which coincides with the insertion order of the
`channel_weights` dict (lines 45–51). -/
def CHANNELS : List String :=
  ["Paid Search", "Paid Social", "Email", "Affiliate", "Organic"]

/-- Python `int(q)` on a real value: truncation toward zero. -/
def truncQ (q : ℚ) : ℤ :=
  if 0 ≤ q then ⌊q⌋ else ⌈q⌉

/-- Python's builtin `round` (round-half-to-even, "banker's rounding"),
on the exact rational value. -/
def pyRound (q : ℚ) : ℤ :=
  let f : ℤ := ⌊q⌋
  let frac : ℚ := q - f
  if frac < 1/2 then f
  else if 1/2 < frac then f + 1
  else if f % 2 = 0 then f else f + 1

/-- Python `round(q, 2)`: round to 2 decimal places, half to even. -/
def round2 (q : ℚ) : ℚ :=
  (pyRound (q * 100) : ℚ) / 100

/-- The fixed allocation weights of `channel_weights` (source lines 45–51). -/
def channelWeight (ch : String) : ℚ :=
  if ch = "Paid Search" then 0.28
  else if ch = "Paid Social" then 0.22
  else if ch = "Email" then 0.15
  else if ch = "Affiliate" then 0.10
  else if ch = "Organic" then 0.25
  else 0

/-- Sum of the rounded allocations of the first four channels
(the loop of source lines 67–71 with `i < len(channels) - 1`). -/
def allocFirstFourSum (total : ℤ) : ℤ :=
  pyRound ((total : ℚ) * channelWeight "Paid Search")
    + pyRound ((total : ℚ) * channelWeight "Paid Social")
    + pyRound ((total : ℚ) * channelWeight "Email")
    + pyRound ((total : ℚ) * channelWeight "Affiliate")

/-- The per-channel purchase allocation (source lines 63–73): each of the
first four channels gets `int(round(total * weight))`; the last channel
(`Organic`) gets `max(0, remaining)` where `remaining` started at `total`
and had each earlier allocation deducted.  `allocations.get(ch, 0)` defaults
to 0 for unknown labels (source line 76). -/
def allocation (total : ℤ) (ch : String) : ℤ :=
  if ch = "Organic" then max 0 (total - allocFirstFourSum total)
  else if ch = "Paid Search" ∨ ch = "Paid Social" ∨ ch = "Email" ∨ ch = "Affiliate" then
    pyRound ((total : ℚ) * channelWeight ch)
  else 0

/-- The bundle of uniform draws consumed by one (day, channel) iteration of the
inner loop (source lines 78–111).  Each field records the value returned by the
corresponding `np.random.uniform` call; range constraints are hypotheses of the
theorems, mirroring the half-open intervals the calls draw from. -/
structure Draws where
  lead_rate : ℚ
  close_rate : ℚ
  lead_noise : ℚ
  sess_noise : ℚ
  cpc : ℚ
  spend_noise : ℚ
  email_spend : ℚ
deriving DecidableEq, Repr

/-- One row of the funnel output table (source lines 97–105). -/
structure FunnelRow where
  funnel_date : ℤ
  channel : String
  sessions : ℤ
  leads : ℤ
  purchases : ℤ
deriving DecidableEq, Repr

/-- One row of the marketing-spend output table (source lines 117–123). -/
structure SpendRow where
  spend_date : ℤ
  channel : String
  spend : ℚ
deriving DecidableEq, Repr

/-- Dates are modelled as day numbers with Monday-start weekday
`d % 7` (`pd.Timestamp(d).weekday()`, source line 60): day 0 is a Monday. -/
def weekdayOf (d : ℤ) : ℕ :=
  (d % 7).toNat

/-- `weekend_factor = 0.85 if weekday >= 5 else 1.0` (source line 61). -/
def weekendFactor (weekday : ℕ) : ℚ :=
  if 5 ≤ weekday then 0.85 else 1

/-- `leads = int(np.ceil((purchases / max(close_rate, 0.01)) * U(0.95, 1.10)))`
(source lines 81–86).  `int(np.ceil x) = ⌈x⌉` on the real value. -/
def leadsRaw (purchases : ℤ) (dr : Draws) : ℤ :=
  ⌈((purchases : ℚ) / max dr.close_rate 0.01) * dr.lead_noise⌉

/-- `sessions = int(np.ceil((leads / max(lead_rate, 0.01)) * U(0.95, 1.15)))`
(source lines 87–92), computed from the not-yet-dampened `leads`. -/
def sessionsRaw (purchases : ℤ) (dr : Draws) : ℤ :=
  ⌈((leadsRaw purchases dr : ℚ) / max dr.lead_rate 0.01) * dr.sess_noise⌉

/-- `sessions = int(sessions * weekend_factor)` (source line 94). -/
def sessionsDamped (wd : ℕ) (purchases : ℤ) (dr : Draws) : ℤ :=
  truncQ ((sessionsRaw purchases dr : ℚ) * weekendFactor wd)

/-- `leads = int(leads * weekend_factor)` (source line 95). -/
def leadsDamped (wd : ℕ) (purchases : ℤ) (dr : Draws) : ℤ :=
  truncQ ((leadsRaw purchases dr : ℚ) * weekendFactor wd)

/-- The funnel row appended for one (day, channel) (source lines 97–105):
fields are clamped with `max(·, 0)` at emission. -/
def funnelRowOf (d : ℤ) (wd : ℕ) (purchases : ℤ) (ch : String) (dr : Draws) :
    FunnelRow :=
  { funnel_date := d
    channel := ch
    sessions := max (sessionsDamped wd purchases dr) 0
    leads := max (leadsDamped wd purchases dr) 0
    purchases := max purchases 0 }

/-- The pre-dampening spend value (source lines 107–113).  Note that the
`sessions` variable read here is the value reassigned on line 94, i.e. the
weekend-dampened session count. -/
def spendRaw (wd : ℕ) (purchases : ℤ) (ch : String) (dr : Draws) : ℚ :=
  if ch = "Paid Search" ∨ ch = "Paid Social" ∨ ch = "Affiliate" then
    (sessionsDamped wd purchases dr : ℚ) * dr.cpc * dr.spend_noise
  else if ch = "Email" then dr.email_spend
  else 0

/-- The spend row appended for one (day, channel) (source lines 115–123):
`spend = spend * weekend_factor`, then `round(float(max(spend, 0.0)), 2)`. -/
def spendRowOf (d : ℤ) (wd : ℕ) (purchases : ℤ) (ch : String) (dr : Draws) :
    SpendRow :=
  { spend_date := d
    channel := ch
    spend := round2 (max (spendRaw wd purchases ch dr * weekendFactor wd) 0) }

/-- One row of the input orders table, after the `pd.to_datetime(...,
errors="coerce")` parse attempt (source lines 27–29): `purchase_ts` is the
parsed timestamp in days (fractional part = time of day), or `none` for an
unparseable value (pandas `NaT`). -/
structure OrderRow where
  order_id : String
  purchase_ts : Option ℚ
deriving DecidableEq, Repr

/-- `orders.dropna(subset=["order_purchase_timestamp"])` (source line 30):
keep only the rows whose timestamp parsed. -/
def validRows (rows : List OrderRow) : List (String × ℚ) :=
  rows.filterMap (fun r => r.purchase_ts.map (fun t => (r.order_id, t)))

/-- `.dt.date` / `.dt.floor("D")` (source lines 32–36): the calendar day of a
timestamp is its floor in whole days. -/
def orderDay (t : ℚ) : ℤ := ⌊t⌋

/-- `min_date = orders["order_purchase_timestamp"].dt.date.min()`
(source line 32), `none` when no row survived the drop. -/
def min_date (rows : List OrderRow) : Option ℤ :=
  (validRows rows).foldl
    (fun acc r => match acc with
      | none => some (orderDay r.2)
      | some m => some (min m (orderDay r.2))) none

/-- `max_date = orders["order_purchase_timestamp"].dt.date.max()`
(source line 33). -/
def max_date (rows : List OrderRow) : Option ℤ :=
  (validRows rows).foldl
    (fun acc r => match acc with
      | none => some (orderDay r.2)
      | some m => some (max m (orderDay r.2))) none

/-- `orders.groupby("order_date")["order_id"].nunique().reindex(all_dates,
fill_value=0)` (source lines 37–42): the number of distinct order ids among
the valid rows whose day is `d`; days with no orders yield 0. -/
def total_purchases (rows : List OrderRow) (d : ℤ) : ℤ :=
  ((((validRows rows).filter (fun r => orderDay r.2 = d)).map Prod.fst).dedup).length

/-- `all_dates = pd.date_range(min_date, max_date, freq="D")` (source line 34):
the number of days in the inclusive range. -/
def numDays (mn mx : ℤ) : ℕ := (mx - mn).toNat + 1

/-- The nested loop of source lines 56–123: for each day of the range (in
order) and each channel of `CHANNELS` (in order), the appended
(funnel row, spend row) pair.  `totals i` is the day's total purchase count
and `draws i ch` the uniform draws consumed by that iteration. -/
def generateRows (mn : ℤ) (n : ℕ) (totals : ℕ → ℤ) (draws : ℕ → String → Draws) :
    List (FunnelRow × SpendRow) :=
  (List.range n).flatMap (fun i =>
    CHANNELS.map (fun ch =>
      (funnelRowOf (mn + i) (weekdayOf (mn + i)) (allocation (totals i) ch) ch (draws i ch),
       spendRowOf (mn + i) (weekdayOf (mn + i)) (allocation (totals i) ch) ch (draws i ch))))

/-- `funnel_rows` (source lines 53, 97–105, 125). -/
def funnelRowsOf (mn : ℤ) (n : ℕ) (totals : ℕ → ℤ) (draws : ℕ → String → Draws) :
    List FunnelRow :=
  (generateRows mn n totals draws).map Prod.fst

/-- `spend_rows` (source lines 54, 117–123, 126). -/
def spendRowsOf (mn : ℤ) (n : ℕ) (totals : ℕ → ℤ) (draws : ℕ → String → Draws) :
    List SpendRow :=
  (generateRows mn n totals draws).map Prod.snd

/-- The observable input state of a run: whether the orders file exists,
the columns of the loaded table, and its rows. -/
structure Input where
  file_exists : Bool
  columns : List String
  rows : List OrderRow

/-- The errors `main` can raise. -/
inductive RunError where
  | fileNotFound (msg : String)
  | valueError (msg : String)
  /-- `pd.date_range(NaT, NaT)` raises when no row has a valid timestamp;
  the exact pandas message is not modelled. -/
  | emptyDateRange
deriving DecidableEq, Repr

/-- Source line 16–18. -/
def missingFileMsg : String :=
  "Missing warehouse/raw_data/olist_orders_dataset.csv. Put Olist CSVs in warehouse/raw_data/ first."

/-- Source line 23–24. -/
def missingColumnMsg : String :=
  "Expected column 'order_purchase_timestamp' not found in olist_orders_dataset.csv"

/-- `main()` (source lines 14–135): the two upfront validations, then the
date-range aggregation and row generation.  The pair of row lists in the
`ok` result models the two files written at lines 128–129; an `error` result
models a raised exception, before which nothing is written. -/
def mainRun (inp : Input) (draws : ℕ → String → Draws) :
    Except RunError (List FunnelRow × List SpendRow) :=
  if inp.file_exists = false then
    .error (.fileNotFound missingFileMsg)
  else if "order_purchase_timestamp" ∉ inp.columns then
    .error (.valueError missingColumnMsg)
  else
    match min_date inp.rows, max_date inp.rows with
    | some mn, some mx =>
        let n := numDays mn mx
        let totals := fun (i : ℕ) => total_purchases inp.rows (mn + i)
        .ok (funnelRowsOf mn n totals draws, spendRowsOf mn n totals draws)
    | _, _ => .error .emptyDateRange

/-! ## Helper lemmas -/

lemma pyRound_nonneg {q : ℚ} (h : 0 ≤ q) : 0 ≤ pyRound q := by
  have hf : (0 : ℤ) ≤ ⌊q⌋ := Int.floor_nonneg.mpr h
  unfold pyRound
  dsimp only
  split_ifs <;> omega

lemma pyRound_zero : pyRound 0 = 0 := by
  unfold pyRound
  norm_num

lemma round2_nonneg {q : ℚ} (h : 0 ≤ q) : 0 ≤ round2 q := by
  unfold round2
  have : (0 : ℤ) ≤ pyRound (q * 100) := pyRound_nonneg (by positivity)
  positivity

lemma round2_zero : round2 0 = 0 := by
  unfold round2
  norm_num [pyRound_zero]

lemma truncQ_nonneg {q : ℚ} (h : 0 ≤ q) : 0 ≤ truncQ q := by
  unfold truncQ
  rw [if_pos h]
  exact Int.floor_nonneg.mpr h

lemma truncQ_intCast (z : ℤ) : truncQ (z : ℚ) = z := by
  unfold truncQ
  split_ifs <;> simp

lemma truncQ_mono {a b : ℚ} (h0 : 0 ≤ a) (h : a ≤ b) : truncQ a ≤ truncQ b := by
  unfold truncQ
  rw [if_pos h0, if_pos (h0.trans h)]
  exact Int.floor_le_floor h

/-! ## C2: per-day channel purchase allocation -/

/-- **C2.** For a day with total purchase count `t ≥ 0`, each of the first four
channels (Paid Search, Paid Social, Email, Affiliate) is allocated
`round(t × weight)` with weights 0.28, 0.22, 0.15, 0.10; Organic receives the
remainder clamped at zero, so it is never negative, and whenever that remainder
is non-negative the five allocations sum to exactly `t`. -/
theorem C2_allocation_invariant (t : ℤ) (ht : 0 ≤ t) :
    allocation t "Paid Search" = pyRound ((t : ℚ) * 0.28) ∧
    allocation t "Paid Social" = pyRound ((t : ℚ) * 0.22) ∧
    allocation t "Email" = pyRound ((t : ℚ) * 0.15) ∧
    allocation t "Affiliate" = pyRound ((t : ℚ) * 0.10) ∧
    allocation t "Organic" = max 0 (t - allocFirstFourSum t) ∧
    0 ≤ allocation t "Organic" ∧
    (0 ≤ t - allocFirstFourSum t → (CHANNELS.map (allocation t)).sum = t) := by
  have a1 : allocation t "Paid Search" = pyRound ((t : ℚ) * 0.28) := by
    simp [allocation, channelWeight]
  have a2 : allocation t "Paid Social" = pyRound ((t : ℚ) * 0.22) := by
    simp [allocation, channelWeight]
  have a3 : allocation t "Email" = pyRound ((t : ℚ) * 0.15) := by
    simp [allocation, channelWeight]
  have a4 : allocation t "Affiliate" = pyRound ((t : ℚ) * 0.10) := by
    simp [allocation, channelWeight]
  have a5 : allocation t "Organic" = max 0 (t - allocFirstFourSum t) := by
    simp [allocation]
  refine ⟨a1, a2, a3, a4, a5, by rw [a5]; exact le_max_left _ _, fun h => ?_⟩
  simp only [CHANNELS, List.map_cons, List.map_nil, List.sum_cons, List.sum_nil]
  rw [a1, a2, a3, a4, a5]
  have hsum : allocFirstFourSum t
      = pyRound ((t : ℚ) * 0.28) + pyRound ((t : ℚ) * 0.22)
        + pyRound ((t : ℚ) * 0.15) + pyRound ((t : ℚ) * 0.10) := by
    simp [allocFirstFourSum, channelWeight]
  rw [hsum] at h ⊢
  omega

/-- Witness for C2 at `t = 100`. -/
theorem C2_allocation_invariant_witness :
    (0 : ℤ) ≤ 100 ∧
    (allocation 100 "Paid Search" = pyRound ((100 : ℚ) * 0.28) ∧
     allocation 100 "Paid Social" = pyRound ((100 : ℚ) * 0.22) ∧
     allocation 100 "Email" = pyRound ((100 : ℚ) * 0.15) ∧
     allocation 100 "Affiliate" = pyRound ((100 : ℚ) * 0.10) ∧
     allocation 100 "Organic" = max 0 (100 - allocFirstFourSum 100) ∧
     0 ≤ allocation 100 "Organic" ∧
     (0 ≤ 100 - allocFirstFourSum 100 → (CHANNELS.map (allocation 100)).sum = 100)) :=
  ⟨by norm_num, C2_allocation_invariant 100 (by norm_num)⟩

/-! ## Row-level helper lemmas -/

lemma weekendFactor_nonneg (wd : ℕ) : 0 ≤ weekendFactor wd := by
  unfold weekendFactor
  split_ifs <;> norm_num

lemma leadsRaw_of_zero (dr : Draws) : leadsRaw 0 dr = 0 := by
  unfold leadsRaw
  norm_num

lemma sessionsRaw_of_zero (dr : Draws) : sessionsRaw 0 dr = 0 := by
  unfold sessionsRaw
  rw [leadsRaw_of_zero]
  norm_num

lemma truncQ_zero : truncQ 0 = 0 := by
  simpa using truncQ_intCast 0

lemma sessionsDamped_of_zero (wd : ℕ) (dr : Draws) : sessionsDamped wd 0 dr = 0 := by
  unfold sessionsDamped
  rw [sessionsRaw_of_zero]
  simpa using truncQ_zero

lemma leadsDamped_of_zero (wd : ℕ) (dr : Draws) : leadsDamped wd 0 dr = 0 := by
  unfold leadsDamped
  rw [leadsRaw_of_zero]
  simpa using truncQ_zero

/-- A concrete draw bundle, inside all the uniform ranges of the source's
`np.random.uniform` calls; used to instantiate theorems. -/
def exampleDraws : Draws :=
  { lead_rate := 0.05, close_rate := 0.1, lead_noise := 1, sess_noise := 1,
    cpc := 1, spend_noise := 1, email_spend := 50 }

/-- Inverting membership in the generated row list: every element comes from
one day index `i < n` and one channel of `CHANNELS`. -/
lemma mem_generateRows {mn : ℤ} {n : ℕ} {totals : ℕ → ℤ} {draws : ℕ → String → Draws}
    {pr : FunnelRow × SpendRow} (h : pr ∈ generateRows mn n totals draws) :
    ∃ i ch, i < n ∧ ch ∈ CHANNELS ∧
      pr = (funnelRowOf (mn + i) (weekdayOf (mn + i)) (allocation (totals i) ch) ch (draws i ch),
            spendRowOf (mn + i) (weekdayOf (mn + i)) (allocation (totals i) ch) ch (draws i ch)) := by
  unfold generateRows at h
  rw [List.mem_flatMap] at h
  obtain ⟨i, hi, hmem⟩ := h
  rw [List.mem_map] at hmem
  obtain ⟨ch, hch, rfl⟩ := hmem
  exact ⟨i, ch, List.mem_range.mp hi, hch, rfl⟩

/-! ## C5: Organic spend is always exactly 0 -/

/-- **C5.** In any generated run, every emitted spend row whose channel is
`Organic` has spend exactly `0.0`. -/
theorem C5_organic_spend_zero (mn : ℤ) (n : ℕ) (totals : ℕ → ℤ)
    (draws : ℕ → String → Draws) (row : SpendRow)
    (hrow : row ∈ spendRowsOf mn n totals draws) (hch : row.channel = "Organic") :
    row.spend = 0 := by
  obtain ⟨pr, hpr, rfl⟩ := List.mem_map.mp hrow
  obtain ⟨i, ch, _, _, rfl⟩ := mem_generateRows hpr
  simp only [spendRowOf] at hch ⊢
  subst hch
  simp [spendRaw, round2_zero]

/-- Witness for C5: the Organic spend row of a concrete one-day run. -/
theorem C5_organic_spend_zero_witness :
    (spendRowOf (0 + ((0 : ℕ) : ℤ)) (weekdayOf (0 + ((0 : ℕ) : ℤ)))
      (allocation 3 "Organic") "Organic" exampleDraws).spend = 0 :=
  C5_organic_spend_zero 0 1 (fun _ => 3) (fun _ _ => exampleDraws) _
    (List.mem_map.mpr ⟨_, List.mem_flatMap.mpr
      ⟨0, List.mem_range.mpr Nat.one_pos,
        List.mem_map.mpr ⟨"Organic", by simp [CHANNELS], rfl⟩⟩, rfl⟩)
    rfl

/-! ## C6: emitted metrics are non-negative -/

/-- **C6.** In any generated run — whatever the input data and the random
draws — every funnel row has `sessions ≥ 0`, `leads ≥ 0`, `purchases ≥ 0`,
and every spend row has `spend ≥ 0`. -/
theorem C6_emitted_nonneg (mn : ℤ) (n : ℕ) (totals : ℕ → ℤ)
    (draws : ℕ → String → Draws) :
    (∀ row ∈ funnelRowsOf mn n totals draws,
        0 ≤ row.sessions ∧ 0 ≤ row.leads ∧ 0 ≤ row.purchases) ∧
    (∀ row ∈ spendRowsOf mn n totals draws, 0 ≤ row.spend) := by
  constructor
  · intro row hrow
    obtain ⟨pr, hpr, rfl⟩ := List.mem_map.mp hrow
    obtain ⟨i, ch, _, _, rfl⟩ := mem_generateRows hpr
    exact ⟨le_max_right _ _, le_max_right _ _, le_max_right _ _⟩
  · intro row hrow
    obtain ⟨pr, hpr, rfl⟩ := List.mem_map.mp hrow
    obtain ⟨i, ch, _, _, rfl⟩ := mem_generateRows hpr
    exact round2_nonneg (le_max_right _ _)

/-- Witness for C6: a concrete funnel row and spend row of a one-day run. -/
theorem C6_emitted_nonneg_witness :
    (0 ≤ (funnelRowOf (0 + ((0 : ℕ) : ℤ)) (weekdayOf (0 + ((0 : ℕ) : ℤ)))
        (allocation 3 "Paid Search") "Paid Search" exampleDraws).sessions) ∧
    (0 ≤ (spendRowOf (0 + ((0 : ℕ) : ℤ)) (weekdayOf (0 + ((0 : ℕ) : ℤ)))
        (allocation 3 "Paid Search") "Paid Search" exampleDraws).spend) :=
  ⟨((C6_emitted_nonneg 0 1 (fun _ => 3) (fun _ _ => exampleDraws)).1 _
      (List.mem_map.mpr ⟨_, List.mem_flatMap.mpr
        ⟨0, List.mem_range.mpr Nat.one_pos,
          List.mem_map.mpr ⟨"Paid Search", by simp [CHANNELS], rfl⟩⟩, rfl⟩)).1,
   (C6_emitted_nonneg 0 1 (fun _ => 3) (fun _ _ => exampleDraws)).2 _
      (List.mem_map.mpr ⟨_, List.mem_flatMap.mpr
        ⟨0, List.mem_range.mpr Nat.one_pos,
          List.mem_map.mpr ⟨"Paid Search", by simp [CHANNELS], rfl⟩⟩, rfl⟩)⟩

/-! ## C10: zero-purchase rows -/

/-- **C10.** For a (day, channel) whose allocated purchases are 0, the emitted
leads and sessions are exactly 0 and the emitted purchases are 0; the emitted
spend is exactly 0 for Paid Search, Paid Social, Affiliate and Organic; Email's
spend is its flat draw from [20, 120] times the weekend factor, rounded. -/
theorem C10_zero_purchase_rows (d : ℤ) (wd : ℕ) (ch : String) (dr : Draws)
    (hes : 20 ≤ dr.email_spend) :
    (funnelRowOf d wd 0 ch dr).leads = 0 ∧
    (funnelRowOf d wd 0 ch dr).sessions = 0 ∧
    (funnelRowOf d wd 0 ch dr).purchases = 0 ∧
    (ch = "Paid Search" ∨ ch = "Paid Social" ∨ ch = "Affiliate" ∨ ch = "Organic" →
      (spendRowOf d wd 0 ch dr).spend = 0) ∧
    (spendRowOf d wd 0 "Email" dr).spend = round2 (dr.email_spend * weekendFactor wd) := by
  refine ⟨?_, ?_, ?_, ?_, ?_⟩
  · simp [funnelRowOf, leadsDamped_of_zero]
  · simp [funnelRowOf, sessionsDamped_of_zero]
  · simp [funnelRowOf]
  · rintro (rfl | rfl | rfl | rfl) <;>
      simp [spendRowOf, spendRaw, sessionsDamped_of_zero, round2_zero]
  · have hwf : 0 ≤ weekendFactor wd := weekendFactor_nonneg wd
    have hes0 : (0 : ℚ) ≤ dr.email_spend := by linarith
    have : max (dr.email_spend * weekendFactor wd) 0 = dr.email_spend * weekendFactor wd :=
      max_eq_left (by positivity)
    simp [spendRowOf, spendRaw, this]

/-- Witness for C10 at a concrete day, channel and draw bundle. -/
theorem C10_zero_purchase_rows_witness :
    (20 : ℚ) ≤ exampleDraws.email_spend ∧
    ((funnelRowOf 0 0 0 "Paid Search" exampleDraws).leads = 0 ∧
     (funnelRowOf 0 0 0 "Paid Search" exampleDraws).sessions = 0 ∧
     (funnelRowOf 0 0 0 "Paid Search" exampleDraws).purchases = 0 ∧
     ("Paid Search" = "Paid Search" ∨ "Paid Search" = "Paid Social" ∨
        "Paid Search" = "Affiliate" ∨ "Paid Search" = "Organic" →
       (spendRowOf 0 0 0 "Paid Search" exampleDraws).spend = 0) ∧
     (spendRowOf 0 0 0 "Email" exampleDraws).spend
        = round2 (exampleDraws.email_spend * weekendFactor 0)) :=
  ⟨by norm_num [exampleDraws],
   C10_zero_purchase_rows 0 0 "Paid Search" exampleDraws (by norm_num [exampleDraws])⟩

/-! ## C7: unparseable timestamp rows are filtered, not fatal -/

lemma validRows_purge (rows : List OrderRow) :
    validRows (rows.filter (fun r => r.purchase_ts.isSome)) = validRows rows := by
  induction rows with
  | nil => rfl
  | cons r rs ih =>
    cases h : r.purchase_ts with
    | none => simpa [validRows, List.filter_cons, List.filterMap_cons, h] using ih
    | some t => simpa [validRows, List.filter_cons, List.filterMap_cons, h] using ih

/-- **C7.** A row whose timestamp did not parse (pandas `NaT`) is silently
removed before aggregation: prepending such a row changes neither the
surviving rows, nor any day's distinct-purchase count, nor `min_date` /
`max_date`; and the whole pipeline computes the same values as on the list
with all unparseable rows removed. -/
theorem C7_unparseable_rows_dropped (rows : List OrderRow) (r : OrderRow)
    (hr : r.purchase_ts = none) :
    validRows (r :: rows) = validRows rows ∧
    (∀ d, total_purchases (r :: rows) d = total_purchases rows d) ∧
    min_date (r :: rows) = min_date rows ∧
    max_date (r :: rows) = max_date rows ∧
    (∀ d, total_purchases (rows.filter (fun row => row.purchase_ts.isSome)) d
        = total_purchases rows d) ∧
    min_date (rows.filter (fun row => row.purchase_ts.isSome)) = min_date rows ∧
    max_date (rows.filter (fun row => row.purchase_ts.isSome)) = max_date rows := by
  have hcons : validRows (r :: rows) = validRows rows := by
    simp [validRows, List.filterMap_cons, hr]
  have hfil := validRows_purge rows
  refine ⟨hcons, fun d => ?_, ?_, ?_, fun d => ?_, ?_, ?_⟩ <;>
    simp only [total_purchases, min_date, max_date, hcons, hfil]

/-- Witness for C7: a concrete unparseable row on a concrete order list. -/
theorem C7_unparseable_rows_dropped_witness :
    (OrderRow.mk "bad" none).purchase_ts = none ∧
    min_date (OrderRow.mk "bad" none :: [OrderRow.mk "o1" (some 0)])
      = min_date [OrderRow.mk "o1" (some 0)] :=
  ⟨rfl, (C7_unparseable_rows_dropped [OrderRow.mk "o1" (some 0)]
      (OrderRow.mk "bad" none) rfl).2.2.1⟩

/-! ## C8: weekend dampening only lowers sessions and leads -/

lemma leadsRaw_nonneg {p : ℤ} {dr : Draws} (hp : 0 ≤ p) (hln : 0 ≤ dr.lead_noise) :
    0 ≤ leadsRaw p dr := by
  unfold leadsRaw
  apply Int.ceil_nonneg
  have hm : (0 : ℚ) < max dr.close_rate 0.01 :=
    lt_of_lt_of_le (by norm_num) (le_max_right _ _)
  have hp' : (0 : ℚ) ≤ (p : ℚ) := by exact_mod_cast hp
  exact mul_nonneg (div_nonneg hp' hm.le) hln

lemma sessionsRaw_nonneg {p : ℤ} {dr : Draws} (hp : 0 ≤ p)
    (hln : 0 ≤ dr.lead_noise) (hsn : 0 ≤ dr.sess_noise) :
    0 ≤ sessionsRaw p dr := by
  unfold sessionsRaw
  apply Int.ceil_nonneg
  have hm : (0 : ℚ) < max dr.lead_rate 0.01 :=
    lt_of_lt_of_le (by norm_num) (le_max_right _ _)
  have hl' : (0 : ℚ) ≤ (leadsRaw p dr : ℚ) := by exact_mod_cast leadsRaw_nonneg hp hln
  exact mul_nonneg (div_nonneg hl' hm.le) hsn

lemma weekendFactor_le_one (wd : ℕ) : weekendFactor wd ≤ 1 := by
  unfold weekendFactor
  split_ifs <;> norm_num

lemma truncQ_wf_le {x : ℤ} (hx : 0 ≤ x) (wd : ℕ) :
    truncQ ((x : ℚ) * weekendFactor wd) ≤ x := by
  have hx' : (0 : ℚ) ≤ (x : ℚ) := by exact_mod_cast hx
  have hle : (x : ℚ) * weekendFactor wd ≤ (x : ℚ) := by
    nlinarith [weekendFactor_le_one wd, weekendFactor_nonneg wd]
  calc truncQ ((x : ℚ) * weekendFactor wd)
      ≤ truncQ (x : ℚ) :=
        truncQ_mono (mul_nonneg hx' (weekendFactor_nonneg wd)) hle
    _ = x := truncQ_intCast x

/-- **C8.** On identical draws and identical purchase allocation, a weekend day
(weekday ∈ {5, 6}) emits sessions and leads less than or equal to those a
weekday (factor 1.0) would emit, and the emitted purchases are identical. -/
theorem C8_weekend_dampens (d1 d2 : ℤ) (wd1 wd2 : ℕ) (p : ℤ) (ch : String)
    (dr : Draws) (hwe : 5 ≤ wd1) (hwd : wd2 < 5) (hp : 0 ≤ p)
    (hln : 0 ≤ dr.lead_noise) (hsn : 0 ≤ dr.sess_noise) :
    (funnelRowOf d1 wd1 p ch dr).sessions ≤ (funnelRowOf d2 wd2 p ch dr).sessions ∧
    (funnelRowOf d1 wd1 p ch dr).leads ≤ (funnelRowOf d2 wd2 p ch dr).leads ∧
    (funnelRowOf d1 wd1 p ch dr).purchases = (funnelRowOf d2 wd2 p ch dr).purchases := by
  have hw2 : weekendFactor wd2 = 1 := by
    unfold weekendFactor
    rw [if_neg (by omega)]
  refine ⟨?_, ?_, rfl⟩
  · show max (sessionsDamped wd1 p dr) 0 ≤ max (sessionsDamped wd2 p dr) 0
    have h2 : sessionsDamped wd2 p dr = sessionsRaw p dr := by
      unfold sessionsDamped
      rw [hw2, mul_one, truncQ_intCast]
    have h1 : sessionsDamped wd1 p dr ≤ sessionsRaw p dr :=
      truncQ_wf_le (sessionsRaw_nonneg hp hln hsn) wd1
    rw [h2]
    exact max_le_max h1 le_rfl
  · show max (leadsDamped wd1 p dr) 0 ≤ max (leadsDamped wd2 p dr) 0
    have h2 : leadsDamped wd2 p dr = leadsRaw p dr := by
      unfold leadsDamped
      rw [hw2, mul_one, truncQ_intCast]
    have h1 : leadsDamped wd1 p dr ≤ leadsRaw p dr :=
      truncQ_wf_le (leadsRaw_nonneg hp hln) wd1
    rw [h2]
    exact max_le_max h1 le_rfl

/-- Witness for C8: Saturday (weekday 5) versus Monday (weekday 0). -/
theorem C8_weekend_dampens_witness :
    5 ≤ 5 ∧ 0 < 5 ∧ (0 : ℤ) ≤ 7 ∧ (0 : ℚ) ≤ exampleDraws.lead_noise ∧
    (0 : ℚ) ≤ exampleDraws.sess_noise ∧
    (funnelRowOf 5 5 7 "Email" exampleDraws).sessions
      ≤ (funnelRowOf 0 0 7 "Email" exampleDraws).sessions :=
  ⟨le_refl 5, by norm_num, by norm_num, by norm_num [exampleDraws],
   by norm_num [exampleDraws],
   (C8_weekend_dampens 5 0 5 0 7 "Email" exampleDraws (le_refl 5) (by norm_num)
      (by norm_num) (by norm_num [exampleDraws]) (by norm_num [exampleDraws])).1⟩

/-! ## C9: sessions ≥ leads ≥ purchases -/

lemma leadsRaw_ge {p : ℤ} {dr : Draws} (hp : 0 ≤ p)
    (hcr : dr.close_rate ≤ 0.18) (hln : 0.95 ≤ dr.lead_noise) :
    (p : ℚ) * (95/18) ≤ (leadsRaw p dr : ℚ) := by
  have hp' : (0 : ℚ) ≤ (p : ℚ) := by exact_mod_cast hp
  have hm : (0 : ℚ) < max dr.close_rate 0.01 :=
    lt_of_lt_of_le (by norm_num) (le_max_right _ _)
  have hm18 : max dr.close_rate 0.01 ≤ 0.18 := max_le hcr (by norm_num)
  have hkey : (p : ℚ) * (95/18) ≤ ((p : ℚ) / max dr.close_rate 0.01) * dr.lead_noise := by
    rw [div_mul_eq_mul_div, le_div_iff₀ hm]
    nlinarith [mul_nonneg hp' (sub_nonneg.mpr hln),
      mul_nonneg (mul_nonneg hp' (by norm_num : (0:ℚ) ≤ 95/18)) (sub_nonneg.mpr hm18)]
  calc (p : ℚ) * (95/18)
      ≤ ((p : ℚ) / max dr.close_rate 0.01) * dr.lead_noise := hkey
    _ ≤ (leadsRaw p dr : ℚ) := Int.le_ceil _

lemma sessionsRaw_ge {p : ℤ} {dr : Draws} (hp : 0 ≤ p)
    (hlr : dr.lead_rate ≤ 0.08) (hln : 0.95 ≤ dr.lead_noise)
    (hsn : 0.95 ≤ dr.sess_noise) :
    (leadsRaw p dr : ℚ) * (95/8) ≤ (sessionsRaw p dr : ℚ) := by
  have hL0 : (0 : ℚ) ≤ (leadsRaw p dr : ℚ) := by
    exact_mod_cast leadsRaw_nonneg hp (by linarith)
  have hm : (0 : ℚ) < max dr.lead_rate 0.01 :=
    lt_of_lt_of_le (by norm_num) (le_max_right _ _)
  have hm8 : max dr.lead_rate 0.01 ≤ 0.08 := max_le hlr (by norm_num)
  have hkey : (leadsRaw p dr : ℚ) * (95/8)
      ≤ ((leadsRaw p dr : ℚ) / max dr.lead_rate 0.01) * dr.sess_noise := by
    rw [div_mul_eq_mul_div, le_div_iff₀ hm]
    nlinarith [mul_nonneg hL0 (sub_nonneg.mpr hsn),
      mul_nonneg (mul_nonneg hL0 (by norm_num : (0:ℚ) ≤ 95/8)) (sub_nonneg.mpr hm8)]
  calc (leadsRaw p dr : ℚ) * (95/8)
      ≤ ((leadsRaw p dr : ℚ) / max dr.lead_rate 0.01) * dr.sess_noise := hkey
    _ ≤ (sessionsRaw p dr : ℚ) := Int.le_ceil _

lemma weekendFactor_ge (wd : ℕ) : (17/20 : ℚ) ≤ weekendFactor wd := by
  unfold weekendFactor
  split_ifs <;> norm_num

/-- **C9.** With draws inside their stated ranges (close rate ≤ 0.18, lead
rate ≤ 0.08, noise factors ≥ 0.95), every emitted funnel row satisfies
`sessions ≥ leads ≥ purchases`, even after the weekend truncation is applied
to sessions and leads but not to purchases. -/
theorem C9_funnel_ordering (d : ℤ) (wd : ℕ) (p : ℤ) (ch : String) (dr : Draws)
    (hp : 0 ≤ p) (hcr : dr.close_rate ≤ 0.18) (hlr : dr.lead_rate ≤ 0.08)
    (hln : 0.95 ≤ dr.lead_noise) (hsn : 0.95 ≤ dr.sess_noise) :
    (funnelRowOf d wd p ch dr).purchases ≤ (funnelRowOf d wd p ch dr).leads ∧
    (funnelRowOf d wd p ch dr).leads ≤ (funnelRowOf d wd p ch dr).sessions := by
  have hp' : (0 : ℚ) ≤ (p : ℚ) := by exact_mod_cast hp
  have hln0 : (0 : ℚ) ≤ dr.lead_noise := by linarith
  have hsn0 : (0 : ℚ) ≤ dr.sess_noise := by linarith
  have hL0' : (0 : ℚ) ≤ (leadsRaw p dr : ℚ) := by
    exact_mod_cast leadsRaw_nonneg hp hln0
  have hwf : (17/20 : ℚ) ≤ weekendFactor wd := weekendFactor_ge wd
  have hwf0 : 0 ≤ weekendFactor wd := weekendFactor_nonneg wd
  have hLge := leadsRaw_ge hp hcr hln
  have hSge := sessionsRaw_ge hp hlr hln hsn
  constructor
  · show max p 0 ≤ max (leadsDamped wd p dr) 0
    have h1 : (p : ℚ) ≤ (leadsRaw p dr : ℚ) * weekendFactor wd := by
      nlinarith [mul_nonneg (sub_nonneg.mpr hLge) hwf0,
        mul_nonneg (mul_nonneg hp' (by norm_num : (0:ℚ) ≤ 95/18)) (sub_nonneg.mpr hwf)]
    have h2 : p ≤ leadsDamped wd p dr := by
      unfold leadsDamped truncQ
      rw [if_pos (mul_nonneg hL0' hwf0)]
      exact Int.le_floor.mpr h1
    exact max_le_max h2 le_rfl
  · show max (leadsDamped wd p dr) 0 ≤ max (sessionsDamped wd p dr) 0
    have hLS : (leadsRaw p dr : ℚ) ≤ (sessionsRaw p dr : ℚ) := by
      nlinarith
    have hds : leadsDamped wd p dr ≤ sessionsDamped wd p dr := by
      unfold leadsDamped sessionsDamped
      exact truncQ_mono (mul_nonneg hL0' hwf0)
        (mul_le_mul_of_nonneg_right hLS hwf0)
    exact max_le_max hds le_rfl

/-- Witness for C9 at a concrete weekend day and in-range draws. -/
theorem C9_funnel_ordering_witness :
    (0 : ℤ) ≤ 7 ∧ exampleDraws.close_rate ≤ 0.18 ∧ exampleDraws.lead_rate ≤ 0.08 ∧
    (0.95 : ℚ) ≤ exampleDraws.lead_noise ∧ (0.95 : ℚ) ≤ exampleDraws.sess_noise ∧
    ((funnelRowOf 5 5 7 "Organic" exampleDraws).purchases
        ≤ (funnelRowOf 5 5 7 "Organic" exampleDraws).leads ∧
     (funnelRowOf 5 5 7 "Organic" exampleDraws).leads
        ≤ (funnelRowOf 5 5 7 "Organic" exampleDraws).sessions) :=
  ⟨by norm_num, by norm_num [exampleDraws], by norm_num [exampleDraws],
   by norm_num [exampleDraws], by norm_num [exampleDraws],
   C9_funnel_ordering 5 5 7 "Organic" exampleDraws (by norm_num)
     (by norm_num [exampleDraws]) (by norm_num [exampleDraws])
     (by norm_num [exampleDraws]) (by norm_num [exampleDraws])⟩

/-! ## C1: the spend formula (corrected) -/

/-- The spend rule as claim C1 states it: the *pre*-weekend-dampened session
count times cpc times the spend noise, with the weekend factor applied exactly
once afterwards, clamped at 0 and rounded to 2 decimals. -/
def spendClaimC1 (wd : ℕ) (purchases : ℤ) (dr : Draws) : ℚ :=
  round2 (max ((sessionsRaw purchases dr : ℚ) * dr.cpc * dr.spend_noise
    * weekendFactor wd) 0)

/-- **C1 counterexample.** On Saturday (weekday 5) with purchases 1 and
in-range draws (close rate 0.1, lead rate 0.05, all noises 1, cpc 1), the raw
session count is 200; the code emits 144.5 (it multiplies the already-dampened
session count 170 by 0.85 again), while the claimed once-dampened formula
gives 170. -/
theorem C1_counterexample :
    sessionsRaw 1 exampleDraws = 200 ∧
    (spendRowOf 5 5 1 "Paid Search" exampleDraws).spend = 289/2 ∧
    spendClaimC1 5 1 exampleDraws = 170 ∧
    (spendRowOf 5 5 1 "Paid Search" exampleDraws).spend ≠ spendClaimC1 5 1 exampleDraws := by
  have h1 : leadsRaw 1 exampleDraws = 10 := by
    unfold leadsRaw exampleDraws
    norm_num
  have h2 : sessionsRaw 1 exampleDraws = 200 := by
    unfold sessionsRaw
    rw [h1]
    unfold exampleDraws
    norm_num
  have h3 : sessionsDamped 5 1 exampleDraws = 170 := by
    unfold sessionsDamped weekendFactor
    rw [h2]
    norm_num [truncQ]
  have h4 : (spendRowOf 5 5 1 "Paid Search" exampleDraws).spend = 289/2 := by
    simp only [spendRowOf, spendRaw, weekendFactor]
    rw [h3]
    norm_num [exampleDraws, round2, pyRound]
  have h5 : spendClaimC1 5 1 exampleDraws = 170 := by
    unfold spendClaimC1 weekendFactor
    rw [h2]
    norm_num [exampleDraws, round2, pyRound]
  refine ⟨h2, h4, h5, ?_⟩
  rw [h4, h5]
  norm_num

/-- **C1 (amended).** For the paid channels (Paid Search, Paid Social,
Affiliate), the emitted spend equals the *emitted funnel sessions* — the
weekend-dampened count of source line 94 — times cpc times the spend noise,
with the weekend factor applied once more afterwards (so on weekends the
dampening reaches spend twice: through the dampened session count and
multiplicatively), then clamped at 0 and rounded to 2 decimals. -/
theorem C1_spend_from_damped_sessions (d : ℤ) (wd : ℕ) (p : ℤ) (ch : String)
    (dr : Draws)
    (hch : ch = "Paid Search" ∨ ch = "Paid Social" ∨ ch = "Affiliate")
    (hp : 0 ≤ p) (hln : 0 ≤ dr.lead_noise) (hsn : 0 ≤ dr.sess_noise) :
    (spendRowOf d wd p ch dr).spend
      = round2 (max (((funnelRowOf d wd p ch dr).sessions : ℚ)
          * dr.cpc * dr.spend_noise * weekendFactor wd) 0) := by
  have hs0 : (0 : ℚ) ≤ (sessionsRaw p dr : ℚ) := by
    exact_mod_cast sessionsRaw_nonneg hp hln hsn
  have hsd : 0 ≤ sessionsDamped wd p dr :=
    truncQ_nonneg (mul_nonneg hs0 (weekendFactor_nonneg wd))
  have hmax : max (sessionsDamped wd p dr) 0 = sessionsDamped wd p dr :=
    max_eq_left hsd
  have hsr : spendRaw wd p ch dr
      = (sessionsDamped wd p dr : ℚ) * dr.cpc * dr.spend_noise := by
    unfold spendRaw
    rw [if_pos hch]
  simp only [spendRowOf, funnelRowOf, hsr, hmax]

/-- Witness for the amended C1 at a concrete weekend day. -/
theorem C1_spend_from_damped_sessions_witness :
    ("Paid Search" = "Paid Search" ∨ "Paid Search" = "Paid Social" ∨
      "Paid Search" = "Affiliate") ∧
    (0 : ℤ) ≤ 1 ∧ (0 : ℚ) ≤ exampleDraws.lead_noise ∧
    (0 : ℚ) ≤ exampleDraws.sess_noise ∧
    (spendRowOf 5 5 1 "Paid Search" exampleDraws).spend
      = round2 (max (((funnelRowOf 5 5 1 "Paid Search" exampleDraws).sessions : ℚ)
          * exampleDraws.cpc * exampleDraws.spend_noise * weekendFactor 5) 0) :=
  ⟨Or.inl rfl, by norm_num, by norm_num [exampleDraws], by norm_num [exampleDraws],
   C1_spend_from_damped_sessions 5 5 1 "Paid Search" exampleDraws (Or.inl rfl)
     (by norm_num) (by norm_num [exampleDraws]) (by norm_num [exampleDraws])⟩

/-! ## C4: upfront validation errors -/

/-- **C4.** If the orders file does not exist, the run fails with a
`FileNotFoundError` whose message names the missing file; if the file exists
but the `order_purchase_timestamp` column is absent, the run fails with a
`ValueError` whose message names the missing column.  In both cases the result
is an error, so no output (the `.ok` payload holding the funnel and spend
tables, written only at the end of `main`) is produced. -/
theorem C4_precondition_errors (inp : Input) (draws : ℕ → String → Draws) :
    (inp.file_exists = false →
      mainRun inp draws = .error (.fileNotFound missingFileMsg)) ∧
    (inp.file_exists = true → "order_purchase_timestamp" ∉ inp.columns →
      mainRun inp draws = .error (.valueError missingColumnMsg)) ∧
    missingFileMsg = "Missing warehouse/raw_data/" ++ "olist_orders_dataset.csv"
        ++ ". Put Olist CSVs in warehouse/raw_data/ first." ∧
    missingColumnMsg = "Expected column '" ++ "order_purchase_timestamp"
        ++ "' not found in olist_orders_dataset.csv" ∧
    (∀ e F S, mainRun inp draws = .error e → mainRun inp draws ≠ .ok (F, S)) := by
  refine ⟨fun h => ?_, fun h1 h2 => ?_, rfl, rfl, fun e F S he hok => ?_⟩
  · unfold mainRun
    rw [if_pos h]
  · unfold mainRun
    rw [if_neg (by simp [h1]), if_pos h2]
  · rw [he] at hok
    exact Except.noConfusion hok

/-- Witness for C4: a run with no input file, and a run whose table lacks the
timestamp column. -/
theorem C4_precondition_errors_witness :
    mainRun ⟨false, [], []⟩ (fun _ _ => exampleDraws)
        = .error (.fileNotFound missingFileMsg) ∧
    mainRun ⟨true, ["order_id"], []⟩ (fun _ _ => exampleDraws)
        = .error (.valueError missingColumnMsg) :=
  ⟨(C4_precondition_errors ⟨false, [], []⟩ (fun _ _ => exampleDraws)).1 rfl,
   (C4_precondition_errors ⟨true, ["order_id"], []⟩ (fun _ _ => exampleDraws)).2.1
     rfl (by decide)⟩

/-! ## C3: one funnel row and one spend row per (date, channel) -/

lemma generateRows_length (mn : ℤ) (n : ℕ) (totals : ℕ → ℤ)
    (draws : ℕ → String → Draws) :
    (generateRows mn n totals draws).length = n * 5 := by
  unfold generateRows
  rw [List.flatMap, List.length_flatten, List.map_map]
  rw [List.map_congr_left (g := fun _ => 5) (by
    intro i _
    simp [CHANNELS])]
  rw [List.map_const', List.sum_replicate, List.length_range, smul_eq_mul]

lemma countP_channels_eq_one (ch0 : String) (h : ch0 ∈ CHANNELS) :
    CHANNELS.countP (fun ch => decide (ch = ch0)) = 1 := by
  simp only [CHANNELS, List.mem_cons, List.not_mem_nil, or_false] at h
  rcases h with rfl | rfl | rfl | rfl | rfl <;> decide

lemma sum_range_indicator (n j : ℕ) (hj : j < n) :
    ((List.range n).map (fun i => if i = j then 1 else 0)).sum = 1 := by
  induction n with
  | zero => omega
  | succ m ih =>
    rw [List.range_succ, List.map_append, List.sum_append]
    by_cases hc : j = m
    · subst hc
      have hz : ((List.range j).map (fun i => if i = j then 1 else 0)).sum = 0 := by
        apply List.sum_eq_zero
        intro x hx
        obtain ⟨i, hi, rfl⟩ := List.mem_map.mp hx
        rw [if_neg (Nat.ne_of_lt (List.mem_range.mp hi))]
      simp [hz]
    · rw [ih (by omega)]
      have hmj : m ≠ j := fun h => hc h.symm
      simp [hmj]

lemma countP_funnelRowsOf (mn : ℤ) (n : ℕ) (totals : ℕ → ℤ)
    (draws : ℕ → String → Draws) (j : ℕ) (hj : j < n) (ch0 : String)
    (hch : ch0 ∈ CHANNELS) :
    (funnelRowsOf mn n totals draws).countP
      (fun r => decide (r.funnel_date = mn + j ∧ r.channel = ch0)) = 1 := by
  unfold funnelRowsOf generateRows
  rw [List.countP_map, List.flatMap, List.countP_flatten, List.map_map]
  rw [List.map_congr_left (g := fun i => if i = j then 1 else 0) (by
    intro i _
    simp only [Function.comp_apply, List.countP_map]
    by_cases hij : i = j
    · subst hij
      rw [if_pos rfl]
      rw [List.countP_congr (q := fun ch => decide (ch = ch0)) (by
        intro ch _
        simp [Function.comp, funnelRowOf])]
      exact countP_channels_eq_one ch0 hch
    · rw [if_neg hij]
      apply List.countP_eq_zero.mpr
      intro ch _
      simp only [Function.comp, funnelRowOf, decide_eq_true_eq, not_and]
      intro hdate
      exact absurd (show i = j by exact_mod_cast add_left_cancel hdate) hij)]
  exact sum_range_indicator n j hj

lemma countP_spendRowsOf (mn : ℤ) (n : ℕ) (totals : ℕ → ℤ)
    (draws : ℕ → String → Draws) (j : ℕ) (hj : j < n) (ch0 : String)
    (hch : ch0 ∈ CHANNELS) :
    (spendRowsOf mn n totals draws).countP
      (fun r => decide (r.spend_date = mn + j ∧ r.channel = ch0)) = 1 := by
  unfold spendRowsOf generateRows
  rw [List.countP_map, List.flatMap, List.countP_flatten, List.map_map]
  rw [List.map_congr_left (g := fun i => if i = j then 1 else 0) (by
    intro i _
    simp only [Function.comp_apply, List.countP_map]
    by_cases hij : i = j
    · subst hij
      rw [if_pos rfl]
      rw [List.countP_congr (q := fun ch => decide (ch = ch0)) (by
        intro ch _
        simp [Function.comp, spendRowOf])]
      exact countP_channels_eq_one ch0 hch
    · rw [if_neg hij]
      apply List.countP_eq_zero.mpr
      intro ch _
      simp only [Function.comp, spendRowOf, decide_eq_true_eq, not_and]
      intro hdate
      exact absurd (show i = j by exact_mod_cast add_left_cancel hdate) hij)]
  exact sum_range_indicator n j hj

/-- **C3.** Whenever the two validations pass and at least one order has a
valid timestamp (so `min_date`/`max_date` exist), the run succeeds and each
output table has exactly `(max_date − min_date + 1) × 5` rows: exactly one
funnel row and one spend row for every (date, channel) pair of the inclusive
date range crossed with the five channels. -/
theorem C3_full_cross_product (inp : Input) (draws : ℕ → String → Draws)
    (mn mx : ℤ) (hex : inp.file_exists = true)
    (hcol : "order_purchase_timestamp" ∈ inp.columns)
    (hmn : min_date inp.rows = some mn) (hmx : max_date inp.rows = some mx) :
    ∃ F S, mainRun inp draws = .ok (F, S) ∧
      F.length = ((mx - mn).toNat + 1) * 5 ∧
      S.length = ((mx - mn).toNat + 1) * 5 ∧
      (∀ j : ℕ, j < (mx - mn).toNat + 1 → ∀ ch0 ∈ CHANNELS,
        F.countP (fun r => decide (r.funnel_date = mn + j ∧ r.channel = ch0)) = 1 ∧
        S.countP (fun r => decide (r.spend_date = mn + j ∧ r.channel = ch0)) = 1) := by
  refine ⟨funnelRowsOf mn (numDays mn mx)
      (fun i => total_purchases inp.rows (mn + i)) draws,
    spendRowsOf mn (numDays mn mx)
      (fun i => total_purchases inp.rows (mn + i)) draws, ?_, ?_, ?_, ?_⟩
  · unfold mainRun
    rw [if_neg (by simp [hex]), if_neg (by simp [hcol]), hmn, hmx]
  · rw [funnelRowsOf, List.length_map, generateRows_length]
    rfl
  · rw [spendRowsOf, List.length_map, generateRows_length]
    rfl
  · intro j hj ch0 hch
    exact ⟨countP_funnelRowsOf mn (numDays mn mx) _ draws j hj ch0 hch,
      countP_spendRowsOf mn (numDays mn mx) _ draws j hj ch0 hch⟩

/-- A one-order input whose date range is the single day 0. -/
def sampleInput : Input :=
  ⟨true, ["order_purchase_timestamp"], [⟨"o1", some 0⟩]⟩

/-- Witness for C3 at `sampleInput`. -/
theorem C3_full_cross_product_witness :
    sampleInput.file_exists = true ∧
    "order_purchase_timestamp" ∈ sampleInput.columns ∧
    min_date sampleInput.rows = some 0 ∧
    max_date sampleInput.rows = some 0 ∧
    (∃ F S, mainRun sampleInput (fun _ _ => exampleDraws) = .ok (F, S) ∧
      F.length = (((0 : ℤ) - 0).toNat + 1) * 5 ∧
      S.length = (((0 : ℤ) - 0).toNat + 1) * 5 ∧
      (∀ j : ℕ, j < ((0 : ℤ) - 0).toNat + 1 → ∀ ch0 ∈ CHANNELS,
        F.countP (fun r => decide (r.funnel_date = 0 + (j : ℤ) ∧ r.channel = ch0)) = 1 ∧
        S.countP (fun r => decide (r.spend_date = 0 + (j : ℤ) ∧ r.channel = ch0)) = 1)) :=
  ⟨rfl, by simp [sampleInput],
   by simp [sampleInput, min_date, validRows, orderDay],
   by simp [sampleInput, max_date, validRows, orderDay],
   C3_full_cross_product sampleInput (fun _ _ => exampleDraws) 0 0 rfl
     (by simp [sampleInput])
     (by simp [sampleInput, min_date, validRows, orderDay])
     (by simp [sampleInput, max_date, validRows, orderDay])⟩

end RevOps
